import Mathlib

set_option linter.unusedVariables false
set_option maxRecDepth 100000

/-!
Shallow embedding of `src/pipe.py` (StreamPipe): the request handler
`StreamHandler.serve_stream` and its chunk pump loop, modelled as pure,
trace-producing functions.

Modelling conventions:
* Bytes are `Nat` values in 0..255; byte strings are `List Nat`.
* Python dicts appearing in the YAML configuration are association lists with
  unique keys, in insertion order; `dict.get` is `dictGet`.
* The external streamlink backend (`session.streams(url)`, `stream.open()`,
  `stream_fd.read(buffer_size)`) is a parameter of type `Backend`:
  `streams` returns either the variant dict or the exception it raises, and
  `openReads` returns, for the opened variant, the successive results of
  `stream_fd.read(buffer_size)` (a returned empty byte string signals end of
  stream; `UpRead.raise` models a read that raises).
* The client socket is modelled by `failAt`: during the relay section the
  `wfile.write` calls are numbered 0, 1, 2, ...; call number `i` raises one of
  the disconnect errors (`BrokenPipeError`, `ConnectionResetError`,
  `ConnectionAbortedError`) iff `failAt = some n` with `n ≤ i`.  A raising
  write delivers no bytes.  The header/status writes and `flush` are assumed
  not to fail (only relay-section writes matter for the handler's
  disconnect handling).
* The observable behaviour of one request is a list of events `Ev`, in
  program order.
-/

/-- Byte values of a pure-ASCII Python string literal after `.encode()`. -/
def strBytes (s : String) : List Nat := s.data.map Char.toNat

/-- Python `str.islower()` on a single character, tabulated over the ISO-8859-1
range.  `BaseHTTPRequestHandler` decodes the request line as ISO-8859-1, so
every character of `self.path` has code point below 0x100; in that range the
characters with the Unicode `Lowercase` property are a–z, ª (0xAA), µ (0xB5),
º (0xBA), ß–ö (0xDF–0xF6) and ø–ÿ (0xF8–0xFF). -/
def pyIslower (c : Char) : Bool :=
  let n := c.toNat
  (97 ≤ n && n ≤ 122) || n == 0xaa || n == 0xb5 || n == 0xba ||
    (0xdf ≤ n && n ≤ 0xf6) || (0xf8 ≤ n && n ≤ 0xff)

/-- Python `str.isdigit()` on a single character, tabulated over the ISO-8859-1
range: 0–9 and the superscripts ¹ (0xB9), ² (0xB2), ³ (0xB3). -/
def pyIsdigit (c : Char) : Bool :=
  let n := c.toNat
  (48 ≤ n && n ≤ 57) || n == 0xb2 || n == 0xb3 || n == 0xb9

/-- One character of the name check at `pipe.py:50`:
`c.islower() or c.isdigit() or c == "-"`. -/
def pyNameChar (c : Char) : Bool := pyIslower c || pyIsdigit c || c == '-'

/-- The spec's character class `[a-z0-9-]` (lowercase ASCII letter, ASCII
digit, hyphen), stated from the spec's words for comparison with the code's
`pyNameChar`. -/
def asciiNameChar (c : Char) : Bool :=
  ('a' ≤ c && c ≤ 'z') || ('0' ≤ c && c ≤ '9') || c == '-'

/-- Code at `pipe.py:50`: `all(c.islower() or c.isdigit() or c == "-" for c in stream_name)`. -/
def validName (s : String) : Bool := s.data.all pyNameChar

/-- A scalar configuration value from the YAML file: string, integer, or
float (floats modelled as rationals; the program never computes with them). -/
inductive ConfigVal
  | s (v : String)
  | i (v : Int)
  | q (v : ℚ)
  deriving DecidableEq, Repr

/-- Python truthiness of a configuration value (`if not url:`). -/
def cvFalsy : ConfigVal → Bool
  | ConfigVal.s v => v == ""
  | ConfigVal.i v => v == 0
  | ConfigVal.q v => v == 0

/-- Truthiness test of an optional value: `None` is falsy. -/
def cvFalsyOpt : Option ConfigVal → Bool
  | none => true
  | some v => cvFalsy v

/-- Python `dict.get(k)` on a dict modelled as an association list with unique
keys (first match). -/
def dictGet {α : Type} (k : String) (xs : List (String × α)) : Option α :=
  (xs.find? (fun kv => kv.1 == k)).map (fun kv => kv.2)

/-- A value of the `streams:` config mapping (`pipe.py:58-62`): either the
descriptor is a dict (and the URL is its `"url"` entry) or the descriptor
itself is the URL. -/
inductive StreamConfig
  | direct (v : ConfigVal)
  | dict (entries : List (String × ConfigVal))
  deriving DecidableEq, Repr

/-- Code at `pipe.py:59-62`: `stream_config.get("url")` for a dict descriptor,
otherwise the descriptor itself. -/
def urlOf : StreamConfig → Option ConfigVal
  | StreamConfig.direct v => some v
  | StreamConfig.dict es => dictGet "url" es

/-- The URL value actually passed on (only used when it is truthy). -/
def resolvedUrl (sc : StreamConfig) : ConfigVal :=
  (urlOf sc).getD (ConfigVal.s "")

/-- The options handed to the streamlink session for one request
(`pipe.py:70-77` and the `buffer_size` lookup at `pipe.py:94`). -/
structure ResolvedOpts where
  user_agent : ConfigVal
  threads : ConfigVal
  timeout : ConfigVal
  ringbuffer_size : Nat
  buffer_size : ConfigVal
  deriving DecidableEq, Repr

/-- Code at `pipe.py:70-77,94`: every option is looked up in the class-level
`streamlink_options` mapping (the global `options:` section of the config)
with a hardcoded default; the ring buffer size is fixed.  Note the route
descriptor is not consulted. -/
def resolveOptions (opts : List (String × ConfigVal)) : ResolvedOpts :=
  { user_agent := (dictGet "user_agent" opts).getD (ConfigVal.s "StreamPipe/1.0")
    threads := (dictGet "threads" opts).getD (ConfigVal.i 4)
    timeout := (dictGet "timeout" opts).getD (ConfigVal.q 20)
    ringbuffer_size := 32 * 1024 * 1024
    buffer_size := (dictGet "buffer_size" opts).getD (ConfigVal.i 8388608) }

/-- Modelled from the spec (§3, §4.1): "Global defaults merged with per-route
overrides if present" — the options the spec says should be handed to the
relay engine, with an entry of the route's own mapping taking precedence over
the global mapping.  Stated from the spec's words, for comparison with the
code's `resolveOptions`. -/
def mergedOptionsSpec (opts routeEntries : List (String × ConfigVal)) : ResolvedOpts :=
  let get := fun (k : String) (d : ConfigVal) =>
    match dictGet k routeEntries with
    | some v => v
    | none => (dictGet k opts).getD d
  { user_agent := get "user_agent" (ConfigVal.s "StreamPipe/1.0")
    threads := get "threads" (ConfigVal.i 4)
    timeout := get "timeout" (ConfigVal.q 20)
    ringbuffer_size := 32 * 1024 * 1024
    buffer_size := get "buffer_size" (ConfigVal.i 8388608) }

/-- Exceptions of the embedded program.  `disconnect` stands for the three
client-disconnect classes caught at `pipe.py:119` (`BrokenPipeError`,
`ConnectionResetError`, `ConnectionAbortedError`); the others are the
streamlink exceptions and the catch-all of `pipe.py:126-133`. -/
inductive PyErr
  | noPlugin
  | noStreams
  | streamError (m : String)
  | disconnect
  | other (m : String)
  deriving DecidableEq, Repr

/-- One result of `stream_fd.read(buffer_size)`: returned bytes (empty list =
end of stream) or a raised exception. -/
inductive UpRead
  | data (bs : List Nat)
  | raise (e : PyErr)
  deriving DecidableEq, Repr

/-- The external streamlink backend, as observed by `serve_stream`:
`streams url` is the outcome of `session.streams(url)` (a name → variant dict,
in enumeration order, variants identified by `Nat` tokens), and `openReads v`
is the outcome of `stream.open()` for variant `v` together with the successive
results of the subsequent reads. -/
structure Backend where
  streams : ConfigVal → Except PyErr (List (String × Nat))
  openReads : Nat → Except PyErr (List UpRead)

/-- Code at `pipe.py:86`: `streams.get("best") or list(streams.values())[0]`.
Streamlink stream objects define no `__bool__`/`__len__`, so a present
`"best"` entry is always truthy and wins; otherwise the first value in dict
order is taken.  Only called on a non-empty dict (guarded at `pipe.py:82`);
the `headD` default is never reached there. -/
def selectVariant (vs : List (String × Nat)) : Nat :=
  match dictGet "best" vs with
  | some v => v
  | none => (vs.headD ("", 0)).2

/-- Observable events of one request, in program order. -/
inductive Ev
  | sendError (code : Nat) (msg : String)
  | sendResponse (code : Nat)
  | sendHeader (k v : String)
  | endHeaders
  | sessionOpts (o : ResolvedOpts)
  | streamsCall (url : ConfigVal)
  | openCall (v : Nat)
  | writeRaw (bs : List Nat)
  | writeChunk (bs : List Nat)
  | writeTerm
  | flush
  | logDisconnect
  | closeUpstream
  deriving DecidableEq, Repr

/-- How the inner `try` of `pipe.py:97-124` ended. -/
inductive PumpExit
  | hung
  | eosDone
  | eosDisc
  | discCaught
  | raised (e : PyErr)
  deriving DecidableEq, Repr

/-- Code at `pipe.py:103-108`: trim a read to the nearest MPEG-TS packet boundary.
`data[:-remainder]` keeps the first `len - remainder` bytes. -/
def trimChunk (bs : List Nat) : List Nat :=
  if bs.length % 188 ≠ 0 ∧ 188 < bs.length then bs.take (bs.length - bs.length % 188)
  else bs

/-- Whether write call number `i` succeeds under disconnect oracle `failAt`. -/
def wrOK (failAt : Option Nat) (i : Nat) : Bool :=
  match failAt with
  | none => true
  | some n => i < n

/-- The bytes of the chunk-size line `f"{n:x}\r\n".encode()` (`pipe.py:112`). -/
def szLine (n : Nat) : List Nat := strBytes (String.mk (Nat.toDigits 16 n) ++ "\r\n")

/-- The bytes of `b"\r\n"`. -/
def crlfBytes : List Nat := [13, 10]

/-- The pump loop of `pipe.py:98-117` (the body of the inner `try`), driven by
the list of read results and the write-failure oracle; `wix` is the number of
`wfile.write` calls made so far.  Returns the events of the loop body together
with how the `try` block ended.  An exhausted read list means the real loop
would still be blocked in `read` (`PumpExit.hung`). -/
def pump (failAt : Option Nat) : List UpRead → Nat → List Ev × PumpExit
  | [], _ => ([], PumpExit.hung)
  | UpRead.raise e :: _, _ =>
      if e = PyErr.disconnect then ([], PumpExit.discCaught) else ([], PumpExit.raised e)
  | UpRead.data bs :: rest, wix =>
      if bs.isEmpty then
        -- `if not data: break`, then `self.wfile.write(b"0\r\n\r\n")`
        if wrOK failAt wix then ([Ev.writeTerm], PumpExit.eosDone)
        else ([], PumpExit.eosDisc)
      else
        let c := trimChunk bs
        -- `if data:` (never false here: truncation keeps at least 188 bytes)
        if c.isEmpty then pump failAt rest wix
        else
          if wrOK failAt wix then
            if wrOK failAt (wix + 1) then
              if wrOK failAt (wix + 2) then
                let pr := pump failAt rest (wix + 3)
                (Ev.writeRaw (szLine c.length) :: Ev.writeChunk c ::
                  Ev.writeRaw crlfBytes :: Ev.flush :: pr.1, pr.2)
              else ([Ev.writeRaw (szLine c.length), Ev.writeChunk c], PumpExit.discCaught)
            else ([Ev.writeRaw (szLine c.length)], PumpExit.discCaught)
          else ([], PumpExit.discCaught)

/-- Translation of a raised exception by the handlers at `pipe.py:126-133`. -/
def dispatchErr : PyErr → Ev
  | PyErr.noPlugin => Ev.sendError 502 "No plugin found for this stream URL"
  | PyErr.noStreams => Ev.sendError 503 "No streams available from source"
  | PyErr.streamError m => Ev.sendError 500 ("Stream error: " ++ m)
  | PyErr.disconnect => Ev.sendError 500 "Server error: "
  | PyErr.other m => Ev.sendError 500 ("Server error: " ++ m)

/-- Events of the session setup at `pipe.py:68-80`: the four `set_option`
calls, then the `session.streams(url)` call. -/
def preBlock (sc : StreamConfig) (opts : List (String × ConfigVal)) : List Ev :=
  [Ev.sessionOpts (resolveOptions opts), Ev.streamsCall (resolvedUrl sc)]

/-- Events of the response commit at `pipe.py:88-92`. -/
def hdrBlock : List Ev :=
  [Ev.sendResponse 200, Ev.sendHeader "Content-Type" "video/MP2T",
   Ev.sendHeader "Transfer-Encoding" "chunked",
   Ev.sendHeader "Cache-Control" "no-cache", Ev.endHeaders]

/-- Events after the pump (`pipe.py:119-124` and the outer handlers):
the inner `except` logs a disconnect, the `finally` closes the upstream
handle, and an exception that was not caught by the inner `except` is then
translated by the outer handlers at `pipe.py:126-133`.  If the loop never
finishes (`hung`), none of that is reached. -/
def relayTail (pr : List Ev × PumpExit) : List Ev :=
  match pr.2 with
  | PumpExit.hung => pr.1
  | PumpExit.eosDone => pr.1 ++ [Ev.closeUpstream]
  | PumpExit.eosDisc => pr.1 ++ [Ev.logDisconnect, Ev.closeUpstream]
  | PumpExit.discCaught => pr.1 ++ [Ev.logDisconnect, Ev.closeUpstream]
  | PumpExit.raised e => pr.1 ++ [Ev.closeUpstream, dispatchErr e]

/-- The handler `StreamHandler.serve_stream` (`pipe.py:49-133`) as a trace-producing
function.  The second component reports how the pump's `try` block ended when
the pump was reached (`none` otherwise); the first is the event trace. -/
def serveStreamEx (name : String) (cfg : List (String × StreamConfig))
    (opts : List (String × ConfigVal)) (B : Backend) (failAt : Option Nat) :
    List Ev × Option PumpExit :=
  if validName name then
    match dictGet name cfg with
    | none => ([Ev.sendError 404 "Not Found"], none)
    | some sc =>
      if cvFalsyOpt (urlOf sc) then
        ([Ev.sendError 500 ("No URL configured for stream '" ++ name ++ "'")], none)
      else
        match B.streams (resolvedUrl sc) with
        | Except.error e => (preBlock sc opts ++ [dispatchErr e], none)
        | Except.ok vs =>
          if vs.isEmpty then
            (preBlock sc opts ++ [Ev.sendError 404 "No streams available"], none)
          else
            match B.openReads (selectVariant vs) with
            | Except.error e =>
                (preBlock sc opts ++ hdrBlock ++
                  [Ev.openCall (selectVariant vs), dispatchErr e], none)
            | Except.ok reads =>
                (preBlock sc opts ++ hdrBlock ++
                  Ev.openCall (selectVariant vs) :: relayTail (pump failAt reads 0),
                 some (pump failAt reads 0).2)
  else ([Ev.sendError 404 "Not Found"], none)

/-- The payloads of the TS data-chunk writes in a trace. -/
def chunkPayloads (evs : List Ev) : List (List Nat) :=
  evs.filterMap (fun ev =>
    match ev with
    | Ev.writeChunk bs => some bs
    | _ => none)

/-- The bytes a write event delivers to the client. -/
def evBytes : Ev → List Nat
  | Ev.writeRaw bs => bs
  | Ev.writeChunk bs => bs
  | Ev.writeTerm => strBytes "0\r\n\r\n"
  | _ => []

/-- The chunked response body as observed by the client. -/
def clientBytes (evs : List Ev) : List Nat := (evs.map evBytes).flatten

/-- Recognizer for the upstream-close event. -/
def isClose : Ev → Bool
  | Ev.closeUpstream => true
  | _ => false

/-- Number of `stream_fd.close()` calls in a trace. -/
def closeCount (evs : List Ev) : Nat := (evs.filter isClose).length

/-- The sequence of data chunks the loop frames when no write fails: one
`trimChunk` per non-empty read, stopping at the first empty or raising read. -/
def pumpChunks : List UpRead → List (List Nat)
  | [] => []
  | UpRead.raise _ :: _ => []
  | UpRead.data bs :: rest =>
      if bs.isEmpty then [] else trimChunk bs :: pumpChunks rest

/-- A fixed 188-byte read used by concrete executions. -/
def bytesA : List Nat := List.replicate 188 7

/-- A backend whose variant dict is `{"best": 0}` and whose open yields the
given reads. -/
def demoBackend (reads : List UpRead) : Backend :=
  { streams := fun _ => Except.ok [("best", 0)]
    openReads := fun _ => Except.ok reads }

/-- A one-route config mapping the name `a` to the plain URL `u`. -/
def cfgA : List (String × StreamConfig) :=
  [("a", StreamConfig.direct (ConfigVal.s "u"))]

/-- A backend whose variant enumeration succeeds but whose `stream.open()`
raises a streamlink `StreamError`. -/
def failOpenBackend : Backend :=
  { streams := fun _ => Except.ok [("best", 7)]
    openReads := fun _ => Except.error (PyErr.streamError "boom") }

/-- A route descriptor carrying a per-route `timeout` override next to its URL. -/
def routeRt : List (String × ConfigVal) :=
  [("url", ConfigVal.s "u"), ("timeout", ConfigVal.q 5)]

/-- Recognizer for the events the pump loop itself can emit. -/
def pumpEv : Ev → Bool
  | Ev.writeRaw _ => true
  | Ev.writeChunk _ => true
  | Ev.writeTerm => true
  | Ev.flush => true
  | _ => false

theorem isEmpty_false_of_ne_nil {α : Type} {l : List α} (h : l ≠ []) : l.isEmpty = false := by
  cases l with
  | nil => exact absurd rfl h
  | cons a t => rfl

theorem ne_nil_of_isEmpty_false {α : Type} {l : List α} (h : l.isEmpty = false) : l ≠ [] := by
  cases l with
  | nil => simp at h
  | cons a t => simp

theorem trimChunk_ne_nil {bs : List Nat} (h : bs ≠ []) : trimChunk bs ≠ [] := by
  unfold trimChunk
  split
  · rename_i hc
    have h1 : 188 < bs.length := hc.2
    have h3 : 0 < min (bs.length - bs.length % 188) bs.length := by omega
    have h4 : 0 < (bs.take (bs.length - bs.length % 188)).length := by
      simpa [List.length_take] using h3
    exact List.length_pos.mp h4
  · exact h

theorem trimChunk_aligned {bs : List Nat} (h : bs ≠ []) :
    (trimChunk bs).length % 188 = 0 ∨ (trimChunk bs).length < 188 := by
  unfold trimChunk
  split
  · rename_i hc
    left
    have h1 : 188 < bs.length := hc.2
    have h2 : (bs.take (bs.length - bs.length % 188)).length =
        bs.length - bs.length % 188 := by
      rw [List.length_take]
      omega
    rw [h2]
    omega
  · rename_i hc
    by_cases hr : bs.length % 188 = 0
    · left; exact hr
    · right
      push_neg at hc
      have := hc hr
      omega

theorem pump_events (f : Option Nat) (rs : List UpRead) (w : Nat) :
    ∀ ev ∈ (pump f rs w).1, pumpEv ev = true := by
  induction rs generalizing w with
  | nil => simp [pump]
  | cons r rest ih =>
    cases r with
    | raise e =>
      by_cases he : e = PyErr.disconnect <;> simp [pump, he]
    | data bs =>
      by_cases hb : bs.isEmpty
      · by_cases hw : wrOK f w <;> simp [pump, hb, hw, pumpEv]
      · by_cases hc : (trimChunk bs).isEmpty
        · intro ev hev
          refine ih w ev ?_
          simpa [pump, hb, hc] using hev
        · by_cases h0 : wrOK f w
          · by_cases h1 : wrOK f (w + 1)
            · by_cases h2 : wrOK f (w + 2)
              · intro ev hev
                simp [pump, hb, hc, h0, h1, h2] at hev
                rcases hev with rfl | rfl | rfl | rfl | hev
                · rfl
                · rfl
                · rfl
                · rfl
                · exact ih (w + 3) ev hev
              · simp [pump, hb, hc, h0, h1, h2, pumpEv]
            · simp [pump, hb, hc, h0, h1, pumpEv]
          · simp [pump, hb, hc, h0, pumpEv]

theorem filter_isClose_pump (f : Option Nat) (rs : List UpRead) (w : Nat) :
    ((pump f rs w).1).filter isClose = [] := by
  rw [List.filter_eq_nil_iff]
  intro a ha
  have := pump_events f rs w a ha
  cases a <;> simp_all [pumpEv, isClose]

theorem writeChunk_mem_pump (f : Option Nat) (rs : List UpRead) (w : Nat) :
    ∀ c : List Nat, Ev.writeChunk c ∈ (pump f rs w).1 →
      ∃ bs, bs ≠ [] ∧ c = trimChunk bs := by
  induction rs generalizing w with
  | nil => intro c h; simp [pump] at h
  | cons r rest ih =>
    cases r with
    | raise e =>
      intro c h
      by_cases he : e = PyErr.disconnect <;> simp [pump, he] at h
    | data bs =>
      intro c h
      by_cases hb : bs.isEmpty
      · by_cases hw : wrOK f w <;> simp [pump, hb, hw] at h
      · have hbs : bs ≠ [] := ne_nil_of_isEmpty_false (by simpa using hb)
        by_cases hc : (trimChunk bs).isEmpty
        · refine ih w c ?_
          simpa [pump, hb, hc] using h
        · by_cases h0 : wrOK f w
          · by_cases h1 : wrOK f (w + 1)
            · by_cases h2 : wrOK f (w + 2)
              · simp [pump, hb, hc, h0, h1, h2] at h
                rcases h with rfl | h
                · exact ⟨bs, hbs, rfl⟩
                · exact ih (w + 3) c h
              · simp [pump, hb, hc, h0, h1, h2] at h
                subst h
                exact ⟨bs, hbs, rfl⟩
            · simp [pump, hb, hc, h0, h1] at h
          · simp [pump, hb, hc, h0] at h

theorem chunkPayloads_append (a b : List Ev) :
    chunkPayloads (a ++ b) = chunkPayloads a ++ chunkPayloads b := by
  simp [chunkPayloads, List.filterMap_append]

theorem chunkPayloads_pump_none (rs : List UpRead) (w : Nat) :
    chunkPayloads (pump none rs w).1 = pumpChunks rs := by
  induction rs generalizing w with
  | nil => simp [pump, pumpChunks, chunkPayloads]
  | cons r rest ih =>
    cases r with
    | raise e =>
      by_cases he : e = PyErr.disconnect <;>
        simp [pump, pumpChunks, he, chunkPayloads]
    | data bs =>
      by_cases hb : bs.isEmpty
      · simp [pump, pumpChunks, hb, wrOK, chunkPayloads]
      · have hbs : bs ≠ [] := ne_nil_of_isEmpty_false (by simpa using hb)
        have hc : (trimChunk bs).isEmpty = false :=
          isEmpty_false_of_ne_nil (trimChunk_ne_nil hbs)
        simp only [pump, pumpChunks, hb, hc, wrOK, if_false, Bool.false_eq_true,
          if_true]
        simp [chunkPayloads]
        simpa [chunkPayloads] using ih (w + 3)

theorem pumpChunks_append (pfx rs : List UpRead)
    (hp : ∀ r ∈ pfx, ∃ b, r = UpRead.data b ∧ b ≠ []) :
    pumpChunks (pfx ++ rs) = pumpChunks pfx ++ pumpChunks rs := by
  induction pfx with
  | nil => simp [pumpChunks]
  | cons r pfx' ih =>
    obtain ⟨b, rfl, hb⟩ := hp r (by simp)
    have hbe : b.isEmpty = false := isEmpty_false_of_ne_nil hb
    simp [pumpChunks, hbe, ih (fun r hr => hp r (by simp [hr]))]

theorem serve_unfold (name : String) (cfg : List (String × StreamConfig))
    (opts : List (String × ConfigVal)) (B : Backend) (failAt : Option Nat)
    (sc : StreamConfig) (vs : List (String × Nat)) (reads : List UpRead)
    (h1 : validName name = true) (h2 : dictGet name cfg = some sc)
    (h3 : cvFalsyOpt (urlOf sc) = false)
    (h4 : B.streams (resolvedUrl sc) = Except.ok vs)
    (h5 : vs.isEmpty = false)
    (h6 : B.openReads (selectVariant vs) = Except.ok reads) :
    serveStreamEx name cfg opts B failAt =
      (preBlock sc opts ++ hdrBlock ++
        Ev.openCall (selectVariant vs) :: relayTail (pump failAt reads 0),
       some (pump failAt reads 0).2) := by
  simp [serveStreamEx, h1, h2, h3, h4, h5, h6]

theorem dispatchErr_shape (e : PyErr) : ∃ k m, dispatchErr e = Ev.sendError k m := by
  cases e <;> exact ⟨_, _, rfl⟩

theorem mem_relayTail {ev : Ev} {pr : List Ev × PumpExit} (h : ev ∈ relayTail pr) :
    ev ∈ pr.1 ∨ ev = Ev.logDisconnect ∨ ev = Ev.closeUpstream ∨
      ∃ e, ev = dispatchErr e := by
  unfold relayTail at h
  split at h
  · exact Or.inl h
  · rcases List.mem_append.mp h with h | h
    · exact Or.inl h
    · simp at h
      exact Or.inr (Or.inr (Or.inl h))
  · rcases List.mem_append.mp h with h | h
    · exact Or.inl h
    · simp at h
      rcases h with rfl | rfl
      · exact Or.inr (Or.inl rfl)
      · exact Or.inr (Or.inr (Or.inl rfl))
  · rcases List.mem_append.mp h with h | h
    · exact Or.inl h
    · simp at h
      rcases h with rfl | rfl
      · exact Or.inr (Or.inl rfl)
      · exact Or.inr (Or.inr (Or.inl rfl))
  · rcases List.mem_append.mp h with h | h
    · exact Or.inl h
    · simp at h
      rcases h with rfl | rfl
      · exact Or.inr (Or.inr (Or.inl rfl))
      · exact Or.inr (Or.inr (Or.inr ⟨_, rfl⟩))

theorem writeChunk_mem_serve (name : String) (cfg : List (String × StreamConfig))
    (opts : List (String × ConfigVal)) (B : Backend) (failAt : Option Nat)
    (c : List Nat)
    (h : Ev.writeChunk c ∈ (serveStreamEx name cfg opts B failAt).1) :
    ∃ bs, bs ≠ [] ∧ c = trimChunk bs := by
  by_cases h1 : validName name
  case neg => simp [serveStreamEx, h1] at h
  case pos =>
  cases hm : dictGet name cfg with
  | none => simp [serveStreamEx, h1, hm] at h
  | some sc =>
    by_cases h3 : cvFalsyOpt (urlOf sc)
    · simp [serveStreamEx, h1, hm, h3] at h
    · cases hs : B.streams (resolvedUrl sc) with
      | error e =>
        obtain ⟨k, m, hk⟩ := dispatchErr_shape e
        simp [serveStreamEx, h1, hm, h3, hs, preBlock, hk] at h
      | ok vs =>
        by_cases hv : vs.isEmpty
        · simp [serveStreamEx, h1, hm, h3, hs, hv, preBlock] at h
        · cases ho : B.openReads (selectVariant vs) with
          | error e =>
            obtain ⟨k, m, hk⟩ := dispatchErr_shape e
            simp [serveStreamEx, h1, hm, h3, hs, hv, ho, preBlock, hdrBlock, hk] at h
          | ok reads =>
            simp [serveStreamEx, h1, hm, h3, hs, hv, ho, preBlock, hdrBlock] at h
            rcases mem_relayTail h with h | h | h | ⟨e, he⟩
            · exact writeChunk_mem_pump _ _ _ _ h
            · cases h
            · cases h
            · obtain ⟨k, m, hk⟩ := dispatchErr_shape e
              rw [hk] at he
              cases he

/-- C1 (amended): every TS data chunk the handler writes to the client is
non-empty and has length either a (positive) multiple of 188 or smaller than
one 188-byte packet.  Contrary to the claim as stated, unaligned chunks are
not confined to the final chunk before the terminal marker: any read that
returns fewer than 188 bytes is written out unaligned, wherever it occurs in
the stream (the guard at `pipe.py:107` only trims reads longer than one
packet). -/
theorem c1_amended (name : String) (cfg : List (String × StreamConfig))
    (opts : List (String × ConfigVal)) (B : Backend) (failAt : Option Nat)
    (c : List Nat)
    (h : Ev.writeChunk c ∈ (serveStreamEx name cfg opts B failAt).1) :
    c ≠ [] ∧ (c.length % 188 = 0 ∨ c.length < 188) := by
  obtain ⟨bs, hbs, rfl⟩ := writeChunk_mem_serve name cfg opts B failAt c h
  exact ⟨trimChunk_ne_nil hbs, trimChunk_aligned hbs⟩

/-- C1 (counterexample to the claim as stated): with a connected client and
upstream reads of 50 bytes, then 188 bytes, then end-of-stream, the handler
writes a 50-byte chunk (not a multiple of 188) followed by a further 188-byte
data chunk — an unaligned chunk mid-stream, while later reads still return
data, which the claim forbids. -/
theorem c1_counterexample :
    chunkPayloads (serveStreamEx "a" cfgA []
        (demoBackend [UpRead.data (List.replicate 50 1), UpRead.data bytesA,
          UpRead.data []]) none).1 =
      [List.replicate 50 1, bytesA] ∧
    (List.replicate 50 1).length % 188 ≠ 0 := by
  constructor
  · rfl
  · decide

/-- C1 witness: a concrete written chunk satisfying the amended bound. -/
theorem c1_witness :
    Ev.writeChunk bytesA ∈ (serveStreamEx "a" cfgA []
        (demoBackend [UpRead.data bytesA, UpRead.data []]) none).1 ∧
    bytesA ≠ [] ∧ (bytesA.length % 188 = 0 ∨ bytesA.length < 188) :=
  ⟨by decide,
   c1_amended "a" cfgA [] (demoBackend [UpRead.data bytesA, UpRead.data []])
     none bytesA (by decide)⟩

/-- C2 (confirmed): for a read of `L` bytes with `L % 188 ≠ 0` and `L > 188`,
occurring after any prefix of non-empty, non-raising reads, the chunk written
for that read is exactly the first `L - L % 188` bytes of the read, and the
trailing `L % 188` bytes appear in no chunk of that cycle nor in any later
cycle (the remaining chunks are exactly those computed from the later reads
alone). -/
theorem c2_truncation (bs : List Nat) (pfx rest : List UpRead)
    (h1 : bs.length % 188 ≠ 0) (h2 : 188 < bs.length)
    (hp : ∀ r ∈ pfx, ∃ b, r = UpRead.data b ∧ b ≠ []) :
    chunkPayloads (pump none (pfx ++ UpRead.data bs :: rest) 0).1 =
      chunkPayloads (pump none pfx 0).1 ++
        (bs.take (bs.length - bs.length % 188) ::
          chunkPayloads (pump none rest 0).1) := by
  have hbs : bs ≠ [] := by
    intro hx
    rw [hx] at h2
    simp at h2
  have hbe : bs.isEmpty = false := isEmpty_false_of_ne_nil hbs
  have ht : trimChunk bs = bs.take (bs.length - bs.length % 188) := by
    unfold trimChunk
    rw [if_pos ⟨h1, h2⟩]
  rw [chunkPayloads_pump_none, chunkPayloads_pump_none, chunkPayloads_pump_none,
    pumpChunks_append pfx (UpRead.data bs :: rest) hp]
  simp [pumpChunks, hbe, ht]

/-- C2 witness: the 200-byte read is truncated to its first 188 bytes. -/
theorem c2_witness :
    (List.range 200).length % 188 ≠ 0 ∧ 188 < (List.range 200).length ∧
    chunkPayloads (pump none
        ([] ++ UpRead.data (List.range 200) :: [UpRead.data []]) 0).1 =
      chunkPayloads (pump none [] 0).1 ++
        ((List.range 200).take
            ((List.range 200).length - (List.range 200).length % 188) ::
          chunkPayloads (pump none [UpRead.data []] 0).1) :=
  ⟨by decide, by decide,
   c2_truncation (List.range 200) [] [UpRead.data []] (by decide) (by decide)
     (by simp)⟩

/-- C3 (confirmed): for the configured route `foo`, a backend whose first read
returns the 200 bytes `0,...,199` and whose second read returns zero bytes,
the relayed body is exactly `"bc\r\n"`, the first 188 bytes of the read,
`"\r\n"`, and the terminal `"0\r\n\r\n"`; the last 12 bytes of the read are
discarded. -/
theorem c3_end_to_end :
    clientBytes (serveStreamEx "foo"
        [("foo", StreamConfig.direct (ConfigVal.s "http://x/y.m3u8"))] []
        (demoBackend [UpRead.data (List.range 200), UpRead.data []]) none).1 =
      strBytes "bc\r\n" ++ (List.range 200).take 188 ++ strBytes "\r\n" ++
        strBytes "0\r\n\r\n" ∧
    ((List.range 200).drop 188).length = 12 := by
  constructor
  · rfl
  · rfl

/-- C4 (confirmed): whenever the pump loop runs after a successful open and
terminates (normally, by a caught client-disconnect write failure, or by any
other raised error), the upstream handle is closed exactly once, and a caught
client disconnect ends the handler with only the log and the close — no error
response and no escaping exception (the inner `except` at `pipe.py:119`
swallows it and the `finally` at `pipe.py:123` releases the handle). -/
theorem c4_close_once (name : String) (cfg : List (String × StreamConfig))
    (opts : List (String × ConfigVal)) (B : Backend) (failAt : Option Nat)
    (sc : StreamConfig) (vs : List (String × Nat)) (reads : List UpRead)
    (h1 : validName name = true) (h2 : dictGet name cfg = some sc)
    (h3 : cvFalsyOpt (urlOf sc) = false)
    (h4 : B.streams (resolvedUrl sc) = Except.ok vs)
    (h5 : vs.isEmpty = false)
    (h6 : B.openReads (selectVariant vs) = Except.ok reads)
    (h7 : (pump failAt reads 0).2 ≠ PumpExit.hung) :
    closeCount (serveStreamEx name cfg opts B failAt).1 = 1 ∧
      (((pump failAt reads 0).2 = PumpExit.eosDisc ∨
          (pump failAt reads 0).2 = PumpExit.discCaught) →
        ∃ p, (serveStreamEx name cfg opts B failAt).1 =
          p ++ [Ev.logDisconnect, Ev.closeUpstream]) := by
  rw [serve_unfold name cfg opts B failAt sc vs reads h1 h2 h3 h4 h5 h6]
  have hp := filter_isClose_pump failAt reads 0
  constructor
  · cases hx : (pump failAt reads 0).2 with
    | hung => exact absurd hx h7
    | eosDone =>
      simp [closeCount, relayTail, hx, List.filter_append, hp, preBlock,
        hdrBlock, isClose]
    | eosDisc =>
      simp [closeCount, relayTail, hx, List.filter_append, hp, preBlock,
        hdrBlock, isClose]
    | discCaught =>
      simp [closeCount, relayTail, hx, List.filter_append, hp, preBlock,
        hdrBlock, isClose]
    | raised e =>
      obtain ⟨k, m, hk⟩ := dispatchErr_shape e
      simp [closeCount, relayTail, hx, List.filter_append, hp, preBlock,
        hdrBlock, isClose, hk]
  · intro hd
    rcases hd with hx | hx <;>
      exact ⟨preBlock sc opts ++ hdrBlock ++
          Ev.openCall (selectVariant vs) :: (pump failAt reads 0).1,
        by simp [relayTail, hx]⟩

/-- C4 witness: a concrete terminating execution closes the handle once. -/
theorem c4_witness :
    (pump none [UpRead.data bytesA, UpRead.data []] 0).2 ≠ PumpExit.hung ∧
    closeCount (serveStreamEx "a" cfgA []
        (demoBackend [UpRead.data bytesA, UpRead.data []]) none).1 = 1 :=
  ⟨by decide,
   (c4_close_once "a" cfgA [] (demoBackend [UpRead.data bytesA, UpRead.data []])
      none (StreamConfig.direct (ConfigVal.s "u")) [("best", 0)]
      [UpRead.data bytesA, UpRead.data []] rfl rfl rfl rfl rfl rfl
      (by decide)).1⟩

/-- C5 (counterexample to the claim as stated): with a backend whose
`stream.open()` raises a `StreamError`, the trace still contains the committed
headers (`end_headers` at `pipe.py:92`) even though the open never succeeded —
the 500 error is sent after the 200 response was already committed, so the
claim that no headers are committed before a successful open is false. -/
theorem c5_counterexample :
    Ev.endHeaders ∈ (serveStreamEx "a" cfgA [] failOpenBackend none).1 ∧
    Ev.sendError 500 "Stream error: boom" ∈
      (serveStreamEx "a" cfgA [] failOpenBackend none).1 := by
  constructor
  · decide
  · decide

/-- C5 (amended): the 200 status line and the three headers are committed
after the variant set has been enumerated non-empty and a variant selected,
but before `stream.open()` is called (`pipe.py:88-95`): under those
hypotheses the trace is the session setup, the full header block, then the
`open` call, whatever the open's outcome. -/
theorem c5_amended (name : String) (cfg : List (String × StreamConfig))
    (opts : List (String × ConfigVal)) (B : Backend) (failAt : Option Nat)
    (sc : StreamConfig) (vs : List (String × Nat))
    (h1 : validName name = true) (h2 : dictGet name cfg = some sc)
    (h3 : cvFalsyOpt (urlOf sc) = false)
    (h4 : B.streams (resolvedUrl sc) = Except.ok vs)
    (h5 : vs.isEmpty = false) :
    ∃ rest, (serveStreamEx name cfg opts B failAt).1 =
      preBlock sc opts ++ hdrBlock ++ Ev.openCall (selectVariant vs) :: rest := by
  cases ho : B.openReads (selectVariant vs) with
  | error e =>
    exact ⟨[dispatchErr e], by simp [serveStreamEx, h1, h2, h3, h4, h5, ho]⟩
  | ok reads =>
    exact ⟨relayTail (pump failAt reads 0),
      by simp [serveStreamEx, h1, h2, h3, h4, h5, ho]⟩

/-- C5 witness: the amended ordering at a concrete input whose open fails. -/
theorem c5_witness :
    ∃ rest, (serveStreamEx "a" cfgA [] failOpenBackend none).1 =
      preBlock (StreamConfig.direct (ConfigVal.s "u")) [] ++ hdrBlock ++
        Ev.openCall (selectVariant [("best", 7)]) :: rest :=
  c5_amended "a" cfgA [] failOpenBackend none
    (StreamConfig.direct (ConfigVal.s "u")) [("best", 7)] rfl rfl rfl rfl rfl

/-- C6 (counterexample to the claim as stated): for a route whose descriptor
carries a per-route `timeout` override, the options the session is configured
with are the global defaults (`timeout` 20.0), not the spec's merge of
defaults and route overrides (`timeout` 5.0): the merged options never appear
in the trace. -/
theorem c6_counterexample :
    Ev.sessionOpts (resolveOptions []) ∈
      (serveStreamEx "a" [("a", StreamConfig.dict routeRt)] []
        (demoBackend []) none).1 ∧
    Ev.sessionOpts (mergedOptionsSpec [] routeRt) ∉
      (serveStreamEx "a" [("a", StreamConfig.dict routeRt)] []
        (demoBackend []) none).1 ∧
    (mergedOptionsSpec [] routeRt).timeout ≠ (resolveOptions []).timeout := by
  refine ⟨by decide, by decide, by decide⟩

/-- C6 (amended): for every request that reaches the relay engine, the
options handed to the streamlink session are `resolveOptions` of the global
`options:` mapping alone — the route descriptor's own entries (beyond `url`)
are ignored (`pipe.py:70-77,94` read only `streamlink_options`). -/
theorem c6_amended (name : String) (cfg : List (String × StreamConfig))
    (opts : List (String × ConfigVal)) (B : Backend) (failAt : Option Nat)
    (sc : StreamConfig)
    (h1 : validName name = true) (h2 : dictGet name cfg = some sc)
    (h3 : cvFalsyOpt (urlOf sc) = false) :
    Ev.sessionOpts (resolveOptions opts) ∈
      (serveStreamEx name cfg opts B failAt).1 := by
  cases hs : B.streams (resolvedUrl sc) with
  | error e => simp [serveStreamEx, h1, h2, h3, hs, preBlock]
  | ok vs =>
    by_cases hv : vs.isEmpty
    · simp [serveStreamEx, h1, h2, h3, hs, hv, preBlock]
    · cases ho : B.openReads (selectVariant vs) with
      | error e => simp [serveStreamEx, h1, h2, h3, hs, hv, ho, preBlock]
      | ok reads => simp [serveStreamEx, h1, h2, h3, hs, hv, ho, preBlock]

/-- C6 witness: the globally-resolved options are configured at a concrete
input. -/
theorem c6_witness :
    Ev.sessionOpts (resolveOptions []) ∈
      (serveStreamEx "a" cfgA [] (demoBackend []) none).1 :=
  c6_amended "a" cfgA [] (demoBackend []) none
    (StreamConfig.direct (ConfigVal.s "u")) rfl rfl rfl

/-- C7 (counterexample to the claim as stated): the name `µ` consists of a
character that is not a lowercase ASCII letter, ASCII digit or hyphen, yet
Python's Unicode-aware `str.islower()` accepts it (`pipe.py:50`), so the
routing table is consulted, the backend invoked, and a 200 response committed
instead of the 404 the claim requires. -/
theorem c7_counterexample :
    asciiNameChar 'µ' = false ∧ pyNameChar 'µ' = true ∧
    Ev.streamsCall (ConfigVal.s "u") ∈
      (serveStreamEx "µ" [("µ", StreamConfig.direct (ConfigVal.s "u"))] []
        (demoBackend [UpRead.data []]) none).1 ∧
    Ev.sendError 404 "Not Found" ∉
      (serveStreamEx "µ" [("µ", StreamConfig.direct (ConfigVal.s "u"))] []
        (demoBackend [UpRead.data []]) none).1 := by
  refine ⟨rfl, rfl, by decide, by decide⟩

/-- C7 (amended): a candidate name containing any character rejected by the
code's check — Python's `islower() or isdigit() or == "-"`, which within the
ISO-8859-1 range of HTTP paths accepts `[a-z0-9-]` and additionally
ª µ º ß à–ö ø–ÿ ¹ ² ³ — yields exactly a 404 with no routing-table lookup and
no backend invocation, for every configuration and backend. -/
theorem c7_amended (name : String) (cfg : List (String × StreamConfig))
    (opts : List (String × ConfigVal)) (B : Backend) (failAt : Option Nat)
    (h : ∃ c ∈ name.data, pyNameChar c = false) :
    serveStreamEx name cfg opts B failAt = ([Ev.sendError 404 "Not Found"], none) := by
  have hv : validName name = false := by
    obtain ⟨c, hc, hpc⟩ := h
    by_contra hvv
    have hvt : validName name = true := by
      revert hvv
      cases validName name <;> simp
    rw [validName, List.all_eq_true] at hvt
    have := hvt c hc
    simp [hpc] at this
  simp [serveStreamEx, hv]

/-- C7 witness: an uppercase name is rejected with a 404 and an untouched
table. -/
theorem c7_witness :
    (∃ c ∈ "A".data, pyNameChar c = false) ∧
    serveStreamEx "A" [("A", StreamConfig.direct (ConfigVal.s "u"))] []
        (demoBackend []) none = ([Ev.sendError 404 "Not Found"], none) :=
  ⟨⟨'A', by decide, by decide⟩,
   c7_amended "A" [("A", StreamConfig.direct (ConfigVal.s "u"))] []
     (demoBackend []) none ⟨'A', by decide, by decide⟩⟩

/-- C8 (confirmed): a configured, syntactically valid route whose resolved URL
is absent or empty (dict descriptor without `url`, dict descriptor with empty
`url`, or a descriptor that is itself the empty string) yields exactly the 500
response naming the stream, with no backend interaction (`pipe.py:58-66`
returns before the streamlink session is used). -/
theorem c8_misconfigured (name : String) (cfg : List (String × StreamConfig))
    (opts : List (String × ConfigVal)) (B : Backend) (failAt : Option Nat)
    (sc : StreamConfig)
    (h1 : validName name = true) (h2 : dictGet name cfg = some sc)
    (h3 : (∃ es, sc = StreamConfig.dict es ∧ dictGet "url" es = none) ∨
          (∃ es, sc = StreamConfig.dict es ∧
            dictGet "url" es = some (ConfigVal.s "")) ∨
          sc = StreamConfig.direct (ConfigVal.s "")) :
    serveStreamEx name cfg opts B failAt =
      ([Ev.sendError 500 ("No URL configured for stream '" ++ name ++ "'")],
       none) := by
  have hf : cvFalsyOpt (urlOf sc) = true := by
    rcases h3 with ⟨es, rfl, he⟩ | ⟨es, rfl, he⟩ | rfl
    · simp [urlOf, cvFalsyOpt, cvFalsy, he]
    · simp [urlOf, cvFalsyOpt, cvFalsy, he]
    · simp [urlOf, cvFalsyOpt, cvFalsy]
  simp [serveStreamEx, h1, h2, hf]

/-- C8 witness: a dict descriptor without a `url` entry gets the 500. -/
theorem c8_witness :
    serveStreamEx "foo" [("foo", StreamConfig.dict [])] [] (demoBackend []) none =
      ([Ev.sendError 500 ("No URL configured for stream '" ++ "foo" ++ "'")],
       none) :=
  c8_misconfigured "foo" [("foo", StreamConfig.dict [])] [] (demoBackend [])
    none (StreamConfig.dict []) rfl rfl (Or.inl ⟨[], rfl, rfl⟩)

/-- C9 (counterexample to the claim as stated): first, with reads of one full
packet then end-of-stream and a client that disconnects at the fourth write,
the loop terminates because a read returned zero bytes, yet the terminal
marker is never written (the terminal write itself raises).  Second, with a
disconnect during the second chunk's payload write, the loop terminates by a
client-disconnect write failure and the observed body ends with a dangling
chunk-size line — not truncated at the last complete chunk. -/
theorem c9_counterexample :
    (((pump (some 3) [UpRead.data bytesA, UpRead.data []] 0).2 = PumpExit.eosDone ∨
       (pump (some 3) [UpRead.data bytesA, UpRead.data []] 0).2 = PumpExit.eosDisc) ∧
      Ev.writeTerm ∉ (pump (some 3) [UpRead.data bytesA, UpRead.data []] 0).1) ∧
    ((pump (some 4) [UpRead.data bytesA, UpRead.data bytesA, UpRead.data []] 0).2 =
        PumpExit.discCaught ∧
      clientBytes (pump (some 4)
          [UpRead.data bytesA, UpRead.data bytesA, UpRead.data []] 0).1 =
        strBytes "bc\r\n" ++ bytesA ++ strBytes "\r\n" ++ strBytes "bc\r\n") := by
  refine ⟨⟨Or.inr (by decide), by decide⟩, by decide, by rfl⟩

/-- C9 (amended): the terminal zero-length chunk is written iff the pump loop
exited via a zero-byte read AND the terminal write call itself succeeded; on
any client-disconnect write failure (including one at the terminal write
itself) the marker is never written, and the observed body simply ends after
the last successful write call, possibly mid-frame. -/
theorem c9_amended (failAt : Option Nat) (reads : List UpRead) (wix : Nat) :
    Ev.writeTerm ∈ (pump failAt reads wix).1 ↔
      (pump failAt reads wix).2 = PumpExit.eosDone := by
  induction reads generalizing wix with
  | nil => simp [pump]
  | cons r rest ih =>
    cases r with
    | raise e => by_cases he : e = PyErr.disconnect <;> simp [pump, he]
    | data bs =>
      by_cases hb : bs.isEmpty
      · by_cases hw : wrOK failAt wix <;> simp [pump, hb, hw]
      · by_cases hc : (trimChunk bs).isEmpty
        · simpa [pump, hb, hc] using ih wix
        · by_cases h0 : wrOK failAt wix
          · by_cases h1 : wrOK failAt (wix + 1)
            · by_cases h2 : wrOK failAt (wix + 2)
              · simpa [pump, hb, hc, h0, h1, h2] using ih (wix + 3)
              · simp [pump, hb, hc, h0, h1, h2]
            · simp [pump, hb, hc, h0, h1]
          · simp [pump, hb, hc, h0]

/-- C10 (confirmed): when the enumerated variant set is non-empty, the variant
opened is `selectVariant`: the `"best"` entry when the dict has one (always
truthy for stream objects), otherwise the first variant in enumeration order
(`pipe.py:86`). -/
theorem c10_selection (name : String) (cfg : List (String × StreamConfig))
    (opts : List (String × ConfigVal)) (B : Backend) (failAt : Option Nat)
    (sc : StreamConfig) (vs : List (String × Nat))
    (h1 : validName name = true) (h2 : dictGet name cfg = some sc)
    (h3 : cvFalsyOpt (urlOf sc) = false)
    (h4 : B.streams (resolvedUrl sc) = Except.ok vs)
    (h5 : vs.isEmpty = false) :
    Ev.openCall (selectVariant vs) ∈ (serveStreamEx name cfg opts B failAt).1 ∧
    (∀ v, dictGet "best" vs = some v → selectVariant vs = v) ∧
    (dictGet "best" vs = none → selectVariant vs = (vs.headD ("", 0)).2) := by
  refine ⟨?_, ?_, ?_⟩
  · cases ho : B.openReads (selectVariant vs) with
    | error e =>
      simp [serveStreamEx, h1, h2, h3, h4, h5, ho, preBlock, hdrBlock]
    | ok reads =>
      simp [serveStreamEx, h1, h2, h3, h4, h5, ho, preBlock, hdrBlock]
  · intro v hv
    simp [selectVariant, hv]
  · intro hv
    simp [selectVariant, hv]

/-- C10 witness: with the single variant `{"best": 0}` the handler opens
variant `0`. -/
theorem c10_witness :
    Ev.openCall (selectVariant [("best", 0)]) ∈
      (serveStreamEx "a" cfgA [] (demoBackend []) none).1 ∧
    (∀ v, dictGet "best" [("best", 0)] = some v →
      selectVariant [("best", 0)] = v) ∧
    (dictGet "best" [("best", 0)] = none →
      selectVariant [("best", 0)] = (([("best", 0)] : List (String × Nat)).headD ("", 0)).2) :=
  c10_selection "a" cfgA [] (demoBackend []) none
    (StreamConfig.direct (ConfigVal.s "u")) [("best", 0)] rfl rfl rfl rfl rfl
